import Mathlib

/-!
Shallow embedding of the cs-build release pipeline (two revisions of the
orchestration script: `src/lib/index.js` and the unnamed revision
`src/unnamed/part_000`).  External collaborators (filesystem, git, the
shell, the JSON parser) are modelled as an oracle `World`; every function
of the script itself is translated directly from the source.
-/

/-- Result of one external command invocation (shelljs `exec` result). -/
structure ExecutionResult where
  code : Int
  stdout : String
  stderr : String

/-- Error kinds raised by the script (`cli.Error` codes, plus the raw
JavaScript errors that can escape: a JSON/require parse error and a
TypeError from calling `indexOf` on a value that lacks it). -/
inductive Err where
  | invalidArgument (msg : String)
  | invalidConfig (msg : String)
  | invalidRepositoryState (msg : String)
  | invalidRepositoryBranch (msg : String)
  | commitsBehind (msg : String)
  | gitError (msg : String)
  | shellCommandFail (msg : String)
  | parseError (msg : String)
  | typeError (msg : String)

/-- JSON values, as produced by `JSON.parse` / `require` of a manifest. -/
inductive Json where
  | null
  | bool (b : Bool)
  | num (n : Int)
  | str (s : String)
  | arr (elements : List Json)
  | obj (fields : List (String × Json))

/-- Repository pair stored for one project. -/
structure Settings where
  client : String
  server : String

/-- The argument object passed to `validateRepositories`. -/
structure Config where
  project : String
  stage : String
  settings : Settings

/-- Oracle for the external world: filesystem existence, git cleanliness,
current branch, the parsed `package.json` of a folder (`Except.error` when
the file's JSON is malformed), and the result of running a shell command
in a given working directory. -/
structure World where
  existsSync : String → Bool
  isGitClean : String → Bool
  currentBranch : String → String
  packageJson : String → Except Unit Json
  shellExec : String → String → ExecutionResult

/- ---------- JavaScript string primitives, modelled explicitly ---------- -/

/-- `path.join folder file` (shallow model: separator insertion). -/
def pathJoin (folder file : String) : String := folder ++ "/" ++ file

/-- ASCII lowercasing, modelling `String.prototype.toLowerCase`. -/
def jsToLowerCase (s : String) : String := String.mk (s.toList.map Char.toLower)

/-- `stdout.replace(/\n/g, '')`: delete every newline. -/
def stripNewlines (s : List Char) : List Char := s.filter (fun c => c ≠ '\n')

/-- `s.split(sep)` for a single-character separator, JS semantics
(`"".split(t) = [""]`, separators delimit possibly-empty fields). -/
def splitOnChar (sep : Char) : List Char → List (List Char)
  | [] => [[]]
  | c :: rest =>
    match splitOnChar sep rest with
    | [] => [[]]
    | h :: t => if c = sep then [] :: h :: t else (c :: h) :: t

/-- Whitespace skipped by `parseInt`. -/
def jsWhitespace (c : Char) : Bool :=
  c = ' ' || c = '\t' || c = '\n' || c = '\r' || c = '\x0b' || c = '\x0c'

/-- Decimal value of a digit list. -/
def digitsValue (ds : List Char) : Nat :=
  ds.foldl (fun acc c => acc * 10 + (c.toNat - 48)) 0

/-- `parseInt(s, 10)` on a string: skip whitespace, optional sign, take the
maximal decimal-digit run; `none` models `NaN`. -/
def jsParseIntChars (s : List Char) : Option Int :=
  let t := s.dropWhile jsWhitespace
  match t with
  | '-' :: rest =>
    let ds := rest.takeWhile Char.isDigit
    if ds.isEmpty then none else some (-(digitsValue ds : Int))
  | '+' :: rest =>
    let ds := rest.takeWhile Char.isDigit
    if ds.isEmpty then none else some ((digitsValue ds : Int))
  | _ =>
    let ds := t.takeWhile Char.isDigit
    if ds.isEmpty then none else some ((digitsValue ds : Int))

/-- `parseInt(x, 10)` where `x` may be `undefined` (an out-of-range array
index): `parseInt(undefined, 10)` is `NaN`. -/
def jsParseInt : Option (List Char) → Option Int
  | none => none
  | some s => jsParseIntChars s

/-- How a JS number interpolates into a template string (`NaN` included). -/
def jsNumToString : Option Int → String
  | none => "NaN"
  | some i => toString i

/-- `pattern` occurs as a substring of `hay` starting here. -/
def listStartsWith : List Char → List Char → Bool
  | _, [] => true
  | [], _ :: _ => false
  | a :: as, b :: bs => a = b && listStartsWith as bs

/-- `hay.indexOf(pattern) !== -1` for strings: substring occurrence. -/
def strContainsSub (hay pat : List Char) : Bool :=
  match hay with
  | [] => pat.isEmpty
  | _ :: rest => listStartsWith hay pat || strContainsSub rest pat

/- ---------- JavaScript object/JSON primitives ---------- -/

/-- Property access `j[key]` on a parsed JSON value: only objects carry the
named properties; duplicate keys resolve to the last occurrence. -/
def lookupLast (fields : List (String × Json)) (key : String) : Option Json :=
  match fields with
  | [] => none
  | (k, v) :: rest =>
    match lookupLast rest key with
    | some r => some r
    | none => if k = key then some v else none

/-- `pkg.key`, `undefined` modelled as `none`. -/
def jsGetField (j : Json) (key : String) : Option Json :=
  match j with
  | Json.obj fields => lookupLast fields key
  | _ => none

/-- JavaScript truthiness of a parsed JSON value. -/
def jsTruthy : Json → Bool
  | Json.null => false
  | Json.bool b => b
  | Json.num n => n ≠ 0
  | Json.str s => s ≠ ""
  | Json.arr _ => true
  | Json.obj _ => true

/-- How a JSON value stringifies inside `Array.prototype.join` (`null`
becomes empty there). -/
def jsItemDisplay : Json → String
  | Json.null => ""
  | Json.bool b => cond b "true" "false"
  | Json.num n => toString n
  | Json.str s => s
  | Json.obj _ => "[object Object]"
  | Json.arr xs => String.intercalate "," (xs.attach.map (fun x => jsItemDisplay x.1))
decreasing_by
  have h := x.2
  simp only [Json.arr.sizeOf_spec]
  calc sizeOf x.1 < sizeOf xs := List.sizeOf_lt_of_mem h
    _ < 1 + sizeOf xs := by omega

/-- How the value of the `version` field interpolates into a template
string (`undefined` when the field is absent). -/
def jsDisplay : Option Json → String
  | none => "undefined"
  | some Json.null => "null"
  | some (Json.arr xs) => String.intercalate "," (xs.map jsItemDisplay)
  | some v => jsItemDisplay v

/-- `currentBranch` strict-equality membership test used by
`protectedBranches.indexOf(currentBranch) !== -1` on an array: only a
string element strictly equals the string `s`. -/
def jsStrMember (xs : List Json) (s : String) : Bool :=
  xs.any (fun x =>
    match x with
    | Json.str t => t = s
    | _ => false)

/- ---------- The script's own functions ---------- -/

/-- `pkg.csBuild.protectedBranches || ['production', 'development']`,
after `if (!pkg.csBuild) pkg.csBuild = {}`. -/
def effectiveProtectedBranches (pkg : Json) : Json :=
  let csBuild :=
    match jsGetField pkg "csBuild" with
    | some v => if jsTruthy v then v else Json.obj []
    | none => Json.obj []
  match jsGetField csBuild "protectedBranches" with
  | some v =>
    if jsTruthy v then v
    else Json.arr [Json.str "production", Json.str "development"]
  | none => Json.arr [Json.str "production", Json.str "development"]

/-- `validateRepositoryBranch(folder)`: require a clean tree, load the
manifest, and reject when the current branch is found by
`protectedBranches.indexOf(currentBranch)`.  Returns the branch name. -/
def validateRepositoryBranch (w : World) (folder : String) : Except Err String :=
  if w.isGitClean folder then
    match w.packageJson folder with
    | Except.error _ => Except.error (Err.parseError (pathJoin folder "package.json"))
    | Except.ok pkg =>
      let currentBranch := w.currentBranch folder
      match effectiveProtectedBranches pkg with
      | Json.arr xs =>
        if jsStrMember xs currentBranch then
          Except.error (Err.invalidRepositoryBranch
            ("\"" ++ currentBranch ++ "\" in \"" ++ folder ++ "\""))
        else
          Except.ok currentBranch
      | Json.str t =>
        if strContainsSub t.toList currentBranch.toList then
          Except.error (Err.invalidRepositoryBranch
            ("\"" ++ currentBranch ++ "\" in \"" ++ folder ++ "\""))
        else
          Except.ok currentBranch
      | _ => Except.error (Err.typeError "protectedBranches.indexOf is not a function")
  else
    Except.error (Err.invalidRepositoryState ("\"" ++ folder ++ "\" repository is not clean\n"))

/-- `execShellCommand(cmd, silent)`: non-zero exit raises
`SHELL_COMMAND_FAIL` naming the command; exit 0 returns `true`.  The
`silent` flag only governs console echo. -/
def execShellCommand (w : World) (cwd : String) (cmd : String) (silent : Option Bool) :
    Except Err Bool :=
  let executionResult := w.shellExec cwd cmd
  if executionResult.code = 0 then Except.ok true
  else Except.error (Err.shellCommandFail cmd)

/-- The `git rev-list --left-right --count <stage>...HEAD` command line
built by `checkCommitsBehind`. -/
def driftCmd (repository stage : String) : String :=
  "git --git-dir=" ++ pathJoin repository ".git" ++
    " rev-list --left-right --count " ++ stage ++ "...HEAD"

/-- The decision `checkCommitsBehind` makes from the command's result:
on exit 0, strip newlines, split on tab, `parseInt` both fields, succeed
only when `behind === 0`; on non-zero exit raise `GIT_ERROR` with the
command's stderr. -/
def commitsBehindFromResult (executionResult : ExecutionResult) : Except Err Unit :=
  if executionResult.code = 0 then
    let s := splitOnChar '\t' (stripNewlines executionResult.stdout.toList)
    let behind := jsParseInt (s.get? 0)
    let ahead := jsParseInt (s.get? 1)
    if behind = some 0 then Except.ok ()
    else Except.error (Err.commitsBehind
      ("repository is behind " ++ jsNumToString behind ++ " and ahead " ++
        jsNumToString ahead ++ " commits\n"))
  else Except.error (Err.gitError executionResult.stderr)

/-- `checkCommitsBehind(repository, stage)`. -/
def checkCommitsBehind (w : World) (cwd : String) (repository stage : String) :
    Except Err Unit :=
  commitsBehindFromResult (w.shellExec cwd (driftCmd repository stage))

/-- `getPackageVersion(repositoryFolder)`: `JSON.parse` the manifest (a
malformed file throws) and return its `version` property, which is
`undefined` (`none`) when the field is absent. -/
def getPackageVersion (w : World) (repositoryFolder : String) :
    Except Err (Option Json) :=
  match w.packageJson repositoryFolder with
  | Except.error _ => Except.error (Err.parseError (pathJoin repositoryFolder "package.json"))
  | Except.ok pkg => Except.ok (jsGetField pkg "version")

/-- The three leading checks of `validateRepositories`: server path
exists, client path exists, paths differ case-insensitively.  The
client-missing message interpolates `config.settings.server`, exactly as
the source does. -/
def validateConfigPaths (w : World) (config : Config) : Except Err Unit :=
  if !(w.existsSync config.settings.server) then
    Except.error (Err.invalidConfig
      ("Repository " ++ config.settings.server ++
        " for server not found. Use cs-build config [PROJECT-NAME] --server /path/to/repository/\n"))
  else if !(w.existsSync config.settings.client) then
    Except.error (Err.invalidConfig
      ("Repository " ++ config.settings.server ++
        " for cs client not found. Use cs-build config [PROJECT-NAME] --client /path/to/repository/\n"))
  else if jsToLowerCase config.settings.client == jsToLowerCase config.settings.server then
    Except.error (Err.invalidConfig
      "Repository folders for client and server have to be different\n")
  else Except.ok ()

/- ---------- Pipeline traces ---------- -/

/-- One observable pipeline action (a gate evaluation or an external
command), recorded in execution order. -/
inductive Step where
  | checkConfig
  | fetch (repo : String)
  | pull (repo : String) (stage : String)
  | branchCheck (repo : String)
  | driftCheck (repo : String) (stage : String)
  | test (repo : String)
  | build (cmd : String)
  | npmVersion (repo : String)
  | gitPush (repo : String) (branch : String)
  | gitPushTags (repo : String)
  | gitAdd (repo : String)
  | gitCommit (repo : String) (message : String)
  | readVersion (repo : String)
deriving BEq, DecidableEq

/-- The spec's gate names. -/
inductive Gate where
  | configValidated
  | fetched
  | branchGated
  | driftGated
  | tested
  | built
deriving BEq, DecidableEq

/-- Which gate a step belongs to. -/
def gateOf : Step → Gate
  | Step.checkConfig => Gate.configValidated
  | Step.fetch _ => Gate.fetched
  | Step.pull _ _ => Gate.fetched
  | Step.branchCheck _ => Gate.branchGated
  | Step.driftCheck _ _ => Gate.driftGated
  | Step.test _ => Gate.tested
  | _ => Gate.built

/-- The mutating release actions: version bump, commit (with its staging
`git add`), push. -/
def isMutating : Step → Bool
  | Step.npmVersion _ => true
  | Step.gitPush _ _ => true
  | Step.gitPushTags _ => true
  | Step.gitAdd _ => true
  | Step.gitCommit _ _ => true
  | _ => false

/-- A computation that records the steps it executed and either a value
or the first error, after which nothing further runs. -/
def StepM (α : Type) : Type := List Step × Except Err α

/-- Lift a pure value. -/
def stepPure {α : Type} (a : α) : StepM α := ([], Except.ok a)

/-- Sequencing: the second computation runs only when the first
succeeded; its steps are appended to the trace. -/
def stepBind {α β : Type} (m : StepM α) (f : α → StepM β) : StepM β :=
  match m.2 with
  | Except.ok a => (m.1 ++ (f a).1, (f a).2)
  | Except.error e => (m.1, Except.error e)

/-- One awaited step: record it, then deliver its result. -/
def gateStep {α : Type} (s : Step) (r : Except Err α) : StepM α := ([s], r)

/-- Command lines built inline by `validateRepositories`. -/
def fetchCmd (repo : String) : String :=
  "git --git-dir=" ++ pathJoin repo ".git" ++ " fetch --all"

/-- `git pull origin <stage>` for a repository (part_000 revision). -/
def pullCmd (repo stage : String) : String :=
  "git --git-dir=" ++ pathJoin repo ".git" ++ " pull origin " ++ stage

/-- `npm test --prefix <repo>`. -/
def testCmd (repo : String) : String := "npm test --prefix " ++ repo

/-- `bumpRepositoryVersion(folder, branch)` (part_000): `process.chdir`
to the folder, then three shell commands, each fail-fast.  The `chdir`
is modelled by running the commands with `folder` as working directory. -/
def bumpRepositoryVersion (w : World) (folder branch : String) : StepM Unit :=
  stepBind (gateStep (Step.npmVersion folder)
      (execShellCommand w folder "npm version prerelease" (some false))) (fun _ =>
  stepBind (gateStep (Step.gitPush folder branch)
      (execShellCommand w folder ("git push origin " ++ branch ++ " --no-verify") (some false))) (fun _ =>
  stepBind (gateStep (Step.gitPushTags folder)
      (execShellCommand w folder "git push --tags --no-verify" (some false))) (fun _ =>
  stepPure ())))

/-- `commitNewClientVersion(folder, branch, currentClientVersion)`
(part_000): `chdir`, `git add .`, `git commit` with the interpolated
client version; the `branch` parameter is unused by the source body. -/
def commitNewClientVersion (w : World) (folder : String) (branch : String)
    (currentClientVersion : Option Json) : StepM Unit :=
  stepBind (gateStep (Step.gitAdd folder)
      (execShellCommand w folder "git add ." (some false))) (fun _ =>
  stepBind (gateStep (Step.gitCommit folder
        ("add client version " ++ jsDisplay currentClientVersion))
      (execShellCommand w folder
        ("git commit -am \"add client version " ++ jsDisplay currentClientVersion ++ "\"")
        (some false))) (fun _ =>
  stepPure ()))

namespace IndexJs

/-- `validateRepositories` of `src/lib/index.js`: config checks, fetch
both, branch-gate both, drift-gate both, test both, then the hardcoded
`npm run build-nightly` for the client. -/
def validateRepositories (w : World) (cwd0 : String) (config : Config) : StepM Unit :=
  stepBind (gateStep Step.checkConfig (validateConfigPaths w config)) (fun _ =>
  stepBind (gateStep (Step.fetch config.settings.client)
      (execShellCommand w cwd0 (fetchCmd config.settings.client) none)) (fun _ =>
  stepBind (gateStep (Step.fetch config.settings.server)
      (execShellCommand w cwd0 (fetchCmd config.settings.server) none)) (fun _ =>
  stepBind (gateStep (Step.branchCheck config.settings.client)
      (validateRepositoryBranch w config.settings.client)) (fun _ =>
  stepBind (gateStep (Step.branchCheck config.settings.server)
      (validateRepositoryBranch w config.settings.server)) (fun _ =>
  stepBind (gateStep (Step.driftCheck config.settings.client config.stage)
      (checkCommitsBehind w cwd0 config.settings.client config.stage)) (fun _ =>
  stepBind (gateStep (Step.driftCheck config.settings.server config.stage)
      (checkCommitsBehind w cwd0 config.settings.server config.stage)) (fun _ =>
  stepBind (gateStep (Step.test config.settings.client)
      (execShellCommand w cwd0 (testCmd config.settings.client) none)) (fun _ =>
  stepBind (gateStep (Step.test config.settings.server)
      (execShellCommand w cwd0 (testCmd config.settings.server) none)) (fun _ =>
  stepBind (gateStep (Step.build ("npm run build-nightly --prefix " ++ config.settings.client))
      (execShellCommand w cwd0
        ("npm run build-nightly --prefix " ++ config.settings.client) (some false))) (fun _ =>
  stepPure ()))))))))))

end IndexJs

namespace Part000

/-- `validateRepositories` of `src/unnamed/part_000`: config checks,
branch-gate both (capturing the branch names), fetch and pull both,
drift-gate both, test both, then bump the client, run
`npm run build-<stage>`, read the client version, commit it in the
server, and bump the server. -/
def validateRepositories (w : World) (cwd0 : String) (config : Config) : StepM Unit :=
  stepBind (gateStep Step.checkConfig (validateConfigPaths w config)) (fun _ =>
  stepBind (gateStep (Step.branchCheck config.settings.client)
      (validateRepositoryBranch w config.settings.client)) (fun clientBranch =>
  stepBind (gateStep (Step.branchCheck config.settings.server)
      (validateRepositoryBranch w config.settings.server)) (fun serverBranch =>
  stepBind (gateStep (Step.fetch config.settings.client)
      (execShellCommand w cwd0 (fetchCmd config.settings.client) none)) (fun _ =>
  stepBind (gateStep (Step.pull config.settings.client config.stage)
      (execShellCommand w cwd0 (pullCmd config.settings.client config.stage) none)) (fun _ =>
  stepBind (gateStep (Step.fetch config.settings.server)
      (execShellCommand w cwd0 (fetchCmd config.settings.server) none)) (fun _ =>
  stepBind (gateStep (Step.pull config.settings.server config.stage)
      (execShellCommand w cwd0 (pullCmd config.settings.server config.stage) none)) (fun _ =>
  stepBind (gateStep (Step.driftCheck config.settings.client config.stage)
      (checkCommitsBehind w cwd0 config.settings.client config.stage)) (fun _ =>
  stepBind (gateStep (Step.driftCheck config.settings.server config.stage)
      (checkCommitsBehind w cwd0 config.settings.server config.stage)) (fun _ =>
  stepBind (gateStep (Step.test config.settings.client)
      (execShellCommand w cwd0 (testCmd config.settings.client) none)) (fun _ =>
  stepBind (gateStep (Step.test config.settings.server)
      (execShellCommand w cwd0 (testCmd config.settings.server) none)) (fun _ =>
  stepBind (bumpRepositoryVersion w config.settings.client clientBranch) (fun _ =>
  stepBind (gateStep (Step.build ("npm run build-" ++ config.stage ++ " --prefix " ++ config.settings.client))
      (execShellCommand w config.settings.client
        ("npm run build-" ++ config.stage ++ " --prefix " ++ config.settings.client) none)) (fun _ =>
  stepBind (gateStep (Step.readVersion config.settings.client)
      (getPackageVersion w config.settings.client)) (fun currentClientVersion =>
  stepBind (commitNewClientVersion w config.settings.server config.stage currentClientVersion) (fun _ =>
  stepBind (bumpRepositoryVersion w config.settings.server serverBranch) (fun _ =>
  stepPure ()))))))))))))))))

end Part000

/- ---------- Canonical step orders and gate predicates ---------- -/

/-- The full step order of the `src/lib/index.js` revision. -/
def canonLib (config : Config) : List Step :=
  [Step.checkConfig,
   Step.fetch config.settings.client,
   Step.fetch config.settings.server,
   Step.branchCheck config.settings.client,
   Step.branchCheck config.settings.server,
   Step.driftCheck config.settings.client config.stage,
   Step.driftCheck config.settings.server config.stage,
   Step.test config.settings.client,
   Step.test config.settings.server,
   Step.build ("npm run build-nightly --prefix " ++ config.settings.client)]

/-- The commit message fragment taken from a repository's manifest
version (only ever used after `getPackageVersion` succeeded). -/
def versionDisplay (w : World) (folder : String) : String :=
  match w.packageJson folder with
  | Except.ok pkg => jsDisplay (jsGetField pkg "version")
  | Except.error _ => ""

/-- The full step order of the `src/unnamed/part_000` revision. -/
def canonPart (w : World) (config : Config) : List Step :=
  [Step.checkConfig,
   Step.branchCheck config.settings.client,
   Step.branchCheck config.settings.server,
   Step.fetch config.settings.client,
   Step.pull config.settings.client config.stage,
   Step.fetch config.settings.server,
   Step.pull config.settings.server config.stage,
   Step.driftCheck config.settings.client config.stage,
   Step.driftCheck config.settings.server config.stage,
   Step.test config.settings.client,
   Step.test config.settings.server,
   Step.npmVersion config.settings.client,
   Step.gitPush config.settings.client (w.currentBranch config.settings.client),
   Step.gitPushTags config.settings.client,
   Step.build ("npm run build-" ++ config.stage ++ " --prefix " ++ config.settings.client),
   Step.readVersion config.settings.client,
   Step.gitAdd config.settings.server,
   Step.gitCommit config.settings.server
     ("add client version " ++ versionDisplay w config.settings.client),
   Step.npmVersion config.settings.server,
   Step.gitPush config.settings.server (w.currentBranch config.settings.server),
   Step.gitPushTags config.settings.server]

/-- An `Except` holds an error. -/
def isError {α : Type} : Except Err α → Bool
  | Except.error _ => true
  | Except.ok _ => false

/-- An error value is of kind `INVALID_CONFIG`. -/
def errIsInvalidConfig : Err → Bool
  | Err.invalidConfig _ => true
  | _ => false

/-- A result is an `INVALID_CONFIG` failure. -/
def isInvalidConfigErr {α : Type} : Except Err α → Bool
  | Except.error e => errIsInvalidConfig e
  | Except.ok _ => false

/-- The disjunction the spec states for `ConfigValidated`: a path is
missing or the paths compare equal case-insensitively. -/
def configPathsBad (w : World) (config : Config) : Bool :=
  !(w.existsSync config.settings.server) ||
  !(w.existsSync config.settings.client) ||
  (jsToLowerCase config.settings.client == jsToLowerCase config.settings.server)

/-- Every read-only gate held for both repositories: config paths valid,
both branch gates passed, both drift checks passed, both test commands
exited 0. -/
def readOnlyGatesOk (w : World) (cwd0 : String) (config : Config) : Prop :=
  validateConfigPaths w config = Except.ok () ∧
  isError (validateRepositoryBranch w config.settings.client) = false ∧
  isError (validateRepositoryBranch w config.settings.server) = false ∧
  checkCommitsBehind w cwd0 config.settings.client config.stage = Except.ok () ∧
  checkCommitsBehind w cwd0 config.settings.server config.stage = Except.ok () ∧
  isError (execShellCommand w cwd0 (testCmd config.settings.client) none) = false ∧
  isError (execShellCommand w cwd0 (testCmd config.settings.server) none) = false

/- ---------- Concrete worlds for witnesses and counterexamples ---------- -/

/-- A world in which every check passes: all paths exist, trees are
clean, the branch is an unprotected feature branch, manifests parse with
a version field, and every command exits 0 with a `0 tab 0` count. -/
def wGood : World where
  existsSync := fun _ => true
  isGitClean := fun _ => true
  currentBranch := fun _ => "feature-x"
  packageJson := fun _ => Except.ok (Json.obj [("version", Json.str "1.0.0")])
  shellExec := fun _ _ => { code := 0, stdout := "0\t0", stderr := "" }

/-- A production-stage configuration over distinct paths. -/
def cfgDemo : Config :=
  { project := "demo", stage := "production",
    settings := { client := "/c", server := "/s" } }

/-- A world whose client path `/cli` is missing while the server path
`/srv` exists. -/
def wMissingClient : World where
  existsSync := fun p => p == "/srv"
  isGitClean := fun _ => true
  currentBranch := fun _ => "feature-x"
  packageJson := fun _ => Except.ok (Json.obj [("version", Json.str "1.0.0")])
  shellExec := fun _ _ => { code := 0, stdout := "0\t0", stderr := "" }

/-- The configuration naming the missing client path. -/
def cfgMissingClient : Config :=
  { project := "demo", stage := "production",
    settings := { client := "/cli", server := "/srv" } }

/-- A world whose manifests are valid JSON but carry no `version` field. -/
def wNoVersion : World where
  existsSync := fun _ => true
  isGitClean := fun _ => true
  currentBranch := fun _ => "feature-x"
  packageJson := fun _ => Except.ok (Json.obj [("name", Json.str "x")])
  shellExec := fun _ _ => { code := 0, stdout := "0\t0", stderr := "" }

/-- A world whose manifests override the protected set with `["main"]`
and whose repositories sit on `main` with a clean tree. -/
def wProtectedMain : World where
  existsSync := fun _ => true
  isGitClean := fun _ => true
  currentBranch := fun _ => "main"
  packageJson := fun _ => Except.ok
    (Json.obj [("csBuild", Json.obj [("protectedBranches", Json.arr [Json.str "main"])])])
  shellExec := fun _ _ => { code := 0, stdout := "0\t0", stderr := "" }

/-- A world in which every command exits 1. -/
def wFail : World where
  existsSync := fun _ => true
  isGitClean := fun _ => true
  currentBranch := fun _ => "feature-x"
  packageJson := fun _ => Except.ok (Json.obj [("version", Json.str "1.0.0")])
  shellExec := fun _ _ => { code := 1, stdout := "", stderr := "boom" }

/-- A world whose manifests are malformed JSON. -/
def wBadJson : World where
  existsSync := fun _ => true
  isGitClean := fun _ => true
  currentBranch := fun _ => "feature-x"
  packageJson := fun _ => Except.error ()
  shellExec := fun _ _ => { code := 0, stdout := "0\t0", stderr := "" }

/- ---------- Helper lemmas ---------- -/

@[simp] theorem stepBind_gate_err {α β : Type} (s : Step) (e : Err) (f : α → StepM β) :
    stepBind (gateStep s (Except.error e)) f = ([s], Except.error e) := rfl

@[simp] theorem stepBind_gate_ok {α β : Type} (s : Step) (a : α) (f : α → StepM β) :
    stepBind (gateStep s (Except.ok a)) f = (s :: (f a).1, (f a).2) := rfl

@[simp] theorem stepBind_assoc {α β γ : Type} (m : StepM α) (f : α → StepM β) (g : β → StepM γ) :
    stepBind (stepBind m f) g = stepBind m (fun a => stepBind (f a) g) := by
  rcases m with ⟨tr, r⟩
  cases r with
  | error e => rfl
  | ok a =>
    cases hfa : (f a).2 with
    | error e => simp [stepBind, hfa]
    | ok b => simp [stepBind, hfa, List.append_assoc]

@[simp] theorem stepBind_pure {α β : Type} (a : α) (f : α → StepM β) :
    stepBind (stepPure a) f = f a := by
  simp [stepBind, stepPure]

theorem execShellCommand_error_eq {w : World} {cwd cmd : String} {silent : Option Bool}
    {e : Err} (h : execShellCommand w cwd cmd silent = Except.error e) :
    e = Err.shellCommandFail cmd := by
  unfold execShellCommand at h
  dsimp only at h
  split at h
  · exact absurd h (by simp)
  · injection h with h2
    exact h2.symm

theorem validateRepositoryBranch_ok_branch {w : World} {folder b : String}
    (h : validateRepositoryBranch w folder = Except.ok b) : b = w.currentBranch folder := by
  unfold validateRepositoryBranch at h
  dsimp only at h
  split at h
  · split at h
    · exact absurd h (by simp)
    · split at h
      · split at h
        · exact absurd h (by simp)
        · injection h with h2
          exact h2.symm
      · split at h
        · exact absurd h (by simp)
        · injection h with h2
          exact h2.symm
      · exact absurd h (by simp)
  · exact absurd h (by simp)

theorem validateRepositoryBranch_error_kind {w : World} {folder : String} {e : Err}
    (h : validateRepositoryBranch w folder = Except.error e) : errIsInvalidConfig e = false := by
  unfold validateRepositoryBranch at h
  dsimp only at h
  split at h
  · split at h
    · injection h with h2
      rw [← h2]
      rfl
    · split at h
      · split at h
        · injection h with h2
          rw [← h2]
          rfl
        · exact absurd h (by simp)
      · split at h
        · injection h with h2
          rw [← h2]
          rfl
        · exact absurd h (by simp)
      · injection h with h2
        rw [← h2]
        rfl
  · injection h with h2
    rw [← h2]
    rfl

theorem commitsBehindFromResult_error_kind {r : ExecutionResult} {e : Err}
    (h : commitsBehindFromResult r = Except.error e) : errIsInvalidConfig e = false := by
  unfold commitsBehindFromResult at h
  dsimp only at h
  split at h
  · split at h
    · exact absurd h (by simp)
    · injection h with h2
      rw [← h2]
      rfl
  · injection h with h2
    rw [← h2]
    rfl

theorem checkCommitsBehind_error_kind {w : World} {cwd repository stage : String} {e : Err}
    (h : checkCommitsBehind w cwd repository stage = Except.error e) :
    errIsInvalidConfig e = false :=
  commitsBehindFromResult_error_kind h

theorem getPackageVersion_error_kind {w : World} {folder : String} {e : Err}
    (h : getPackageVersion w folder = Except.error e) : errIsInvalidConfig e = false := by
  unfold getPackageVersion at h
  split at h
  · injection h with h2
    rw [← h2]
    rfl
  · exact absurd h (by simp)

theorem getPackageVersion_ok_display {w : World} {folder : String} {v : Option Json}
    (h : getPackageVersion w folder = Except.ok v) : jsDisplay v = versionDisplay w folder := by
  unfold getPackageVersion at h
  unfold versionDisplay
  split at h
  · exact absurd h (by simp)
  · rename_i pkg heq
    rw [heq]
    injection h with h2
    exact congrArg jsDisplay h2.symm

theorem isInvalidConfigErr_true_elim {α : Type} {r : Except Err α}
    (h : isInvalidConfigErr r = true) : ∃ m, r = Except.error (Err.invalidConfig m) := by
  cases r with
  | ok a => exact absurd h (by simp [isInvalidConfigErr])
  | error e =>
    cases e with
    | invalidConfig m => exact ⟨m, rfl⟩
    | _ => exact absurd h (by simp [isInvalidConfigErr, errIsInvalidConfig])

theorem configPaths_invalid (w : World) (config : Config) :
    isInvalidConfigErr (validateConfigPaths w config) = configPathsBad w config := by
  unfold validateConfigPaths configPathsBad
  rcases hs : w.existsSync config.settings.server with _ | _ <;>
    rcases hc : w.existsSync config.settings.client with _ | _ <;>
      rcases he : jsToLowerCase config.settings.client == jsToLowerCase config.settings.server
        with _ | _ <;>
    simp [hs, hc, he, isInvalidConfigErr, errIsInvalidConfig]

/- ---------- Claim theorems: leaf components ---------- -/

/-- C5: for every invocation through the shell executor,
`SHELL_COMMAND_FAIL` is raised exactly when the exit code is non-zero,
never when it is 0, and the outcome depends only on the exit code (so
stderr content is irrelevant). -/
theorem claim5_shell_command_fail :
    ∀ (w : World) (cwd cmd : String) (silent : Option Bool),
      ((w.shellExec cwd cmd).code = 0 → execShellCommand w cwd cmd silent = Except.ok true) ∧
      ((w.shellExec cwd cmd).code ≠ 0 →
        execShellCommand w cwd cmd silent = Except.error (Err.shellCommandFail cmd)) ∧
      (∀ w2 : World, (w2.shellExec cwd cmd).code = (w.shellExec cwd cmd).code →
        execShellCommand w2 cwd cmd silent = execShellCommand w cwd cmd silent) := by
  intro w cwd cmd silent
  refine ⟨fun h => ?_, fun h => ?_, fun w2 h => ?_⟩
  · simp [execShellCommand, h]
  · simp [execShellCommand, h]
  · simp [execShellCommand, h]

/-- Witness for C5 at concrete worlds: exit 0 returns `true`, exit 1
raises `SHELL_COMMAND_FAIL` naming the command. -/
theorem claim5_witness :
    execShellCommand wGood "/" (testCmd "/c") none = Except.ok true ∧
    execShellCommand wFail "/" (testCmd "/c") none =
      Except.error (Err.shellCommandFail (testCmd "/c")) :=
  ⟨(claim5_shell_command_fail wGood "/" (testCmd "/c") none).1 rfl,
   (claim5_shell_command_fail wFail "/" (testCmd "/c") none).2.1 (by decide)⟩

/-- C3: for every (behind, ahead) count pair delivered by the drift
command, the gate fails exactly when `behind > 0`, regardless of `ahead`,
and the failure is `COMMITS_BEHIND` reporting both counts. -/
theorem claim3_drift_fails_iff_behind_pos :
    ∀ (r : ExecutionResult) (behind ahead : Nat),
      r.code = 0 →
      jsParseInt ((splitOnChar '\t' (stripNewlines r.stdout.toList)).get? 0) =
        some ((behind : Nat) : Int) →
      jsParseInt ((splitOnChar '\t' (stripNewlines r.stdout.toList)).get? 1) =
        some ((ahead : Nat) : Int) →
      (isError (commitsBehindFromResult r) = true ↔ 0 < behind) ∧
      (0 < behind → commitsBehindFromResult r = Except.error (Err.commitsBehind
        ("repository is behind " ++ jsNumToString (some ((behind : Nat) : Int)) ++
          " and ahead " ++ jsNumToString (some ((ahead : Nat) : Int)) ++ " commits\n"))) := by
  intro r behind ahead hc hb ha
  unfold commitsBehindFromResult
  dsimp only
  rw [if_pos hc, hb, ha]
  rcases Nat.eq_zero_or_pos behind with h0 | h0
  · subst h0
    simp [isError]
  · have hne : ¬ (some ((behind : Nat) : Int) = some (0 : Int)) := by
      simp
      omega
    rw [if_neg hne]
    simp [isError, h0]

/-- Witness for C3 at the concrete count output `3 tab 1`. -/
theorem claim3_witness :
    (0 : Nat) < 3 ∧
    commitsBehindFromResult { code := 0, stdout := "3\t1", stderr := "" } =
      Except.error (Err.commitsBehind "repository is behind 3 and ahead 1 commits\n") :=
  ⟨by decide,
   (claim3_drift_fails_iff_behind_pos { code := 0, stdout := "3\t1", stderr := "" } 3 1
      rfl rfl rfl).2 (by decide)⟩

/-- C6: the drift decision is identical whether or not stdout carries a
trailing newline, and a non-zero exit code yields `GIT_ERROR` carrying
the command's stderr (so never `COMMITS_BEHIND`). -/
theorem claim6_drift_parse_newline_and_git_error :
    ∀ (code : Int) (stdout stderr : String),
      commitsBehindFromResult { code := code, stdout := stdout ++ "\n", stderr := stderr } =
        commitsBehindFromResult { code := code, stdout := stdout, stderr := stderr } ∧
      (code ≠ 0 → commitsBehindFromResult { code := code, stdout := stdout, stderr := stderr } =
        Except.error (Err.gitError stderr)) := by
  intro code stdout stderr
  constructor
  · have hstrip : stripNewlines ((stdout ++ "\n").toList) = stripNewlines (stdout.toList) := by
      obtain ⟨l⟩ := stdout
      show stripNewlines (l ++ ['\n']) = stripNewlines l
      simp [stripNewlines, List.filter_append]
    unfold commitsBehindFromResult
    dsimp only
    rw [hstrip]
  · intro h
    unfold commitsBehindFromResult
    dsimp only
    rw [if_neg h]

/-- Witness for C6: non-zero exit over concrete output. -/
theorem claim6_witness :
    commitsBehindFromResult { code := 0, stdout := "3\t1\n", stderr := "" } =
      commitsBehindFromResult { code := 0, stdout := "3\t1", stderr := "" } ∧
    commitsBehindFromResult { code := 128, stdout := "", stderr := "fatal: bad revision" } =
      Except.error (Err.gitError "fatal: bad revision") :=
  ⟨(claim6_drift_parse_newline_and_git_error 0 "3\t1" "").1,
   (claim6_drift_parse_newline_and_git_error 128 "" "fatal: bad revision").2 (by decide)⟩

/-- C10: when the count command exits 0 but the first field does not
parse as a number, the gate is not passed and `GIT_ERROR` is not raised:
the result is `COMMITS_BEHIND` with `NaN` interpolated into the message. -/
theorem claim10_nan_behind_raises_commits_behind :
    ∀ (r : ExecutionResult),
      r.code = 0 →
      jsParseInt ((splitOnChar '\t' (stripNewlines r.stdout.toList)).get? 0) = none →
      commitsBehindFromResult r = Except.error (Err.commitsBehind
        ("repository is behind NaN and ahead " ++
          jsNumToString (jsParseInt ((splitOnChar '\t' (stripNewlines r.stdout.toList)).get? 1)) ++
          " commits\n")) := by
  intro r hc hb
  unfold commitsBehindFromResult
  dsimp only
  rw [if_pos hc, hb]
  rw [if_neg (by simp)]
  rfl

/-- Witness for C10 at the unparsable output `foo`. -/
theorem claim10_witness :
    commitsBehindFromResult { code := 0, stdout := "foo", stderr := "" } =
      Except.error (Err.commitsBehind "repository is behind NaN and ahead NaN commits\n") :=
  claim10_nan_behind_raises_commits_behind { code := 0, stdout := "foo", stderr := "" } rfl rfl

/-- C2: with a parsed manifest whose effective protected set is an array,
the branch gate fails exactly when the tree is dirty (raising
`INVALID_REPOSITORY_STATE`) or the current branch is strictly-equal to a
member of that array (raising `INVALID_REPOSITORY_BRANCH`); the effective
set is the `csBuild.protectedBranches` override when present and truthy,
and the default `production`/`development` otherwise. -/
theorem claim2_branch_gate_iff :
    ∀ (w : World) (folder : String) (pkg : Json) (prot : List Json),
      w.packageJson folder = Except.ok pkg →
      effectiveProtectedBranches pkg = Json.arr prot →
      (isError (validateRepositoryBranch w folder) = true ↔
        (w.isGitClean folder = false ∨ jsStrMember prot (w.currentBranch folder) = true)) ∧
      (w.isGitClean folder = false →
        validateRepositoryBranch w folder = Except.error
          (Err.invalidRepositoryState ("\"" ++ folder ++ "\" repository is not clean\n"))) ∧
      (w.isGitClean folder = true → jsStrMember prot (w.currentBranch folder) = true →
        validateRepositoryBranch w folder = Except.error
          (Err.invalidRepositoryBranch
            ("\"" ++ w.currentBranch folder ++ "\" in \"" ++ folder ++ "\""))) ∧
      (∀ pkg2 : Json, jsGetField pkg2 "csBuild" = none →
        effectiveProtectedBranches pkg2 =
          Json.arr [Json.str "production", Json.str "development"]) ∧
      (∀ pkg2 cs : Json, jsGetField pkg2 "csBuild" = some cs → jsTruthy cs = true →
        jsGetField cs "protectedBranches" = none →
        effectiveProtectedBranches pkg2 =
          Json.arr [Json.str "production", Json.str "development"]) ∧
      (∀ pkg2 cs ov : Json, jsGetField pkg2 "csBuild" = some cs → jsTruthy cs = true →
        jsGetField cs "protectedBranches" = some ov → jsTruthy ov = true →
        effectiveProtectedBranches pkg2 = ov) := by
  intro w folder pkg prot hpkg hprot
  have hval : validateRepositoryBranch w folder =
      (if w.isGitClean folder then
        (if jsStrMember prot (w.currentBranch folder) then
          Except.error (Err.invalidRepositoryBranch
            ("\"" ++ w.currentBranch folder ++ "\" in \"" ++ folder ++ "\""))
        else Except.ok (w.currentBranch folder))
      else Except.error
        (Err.invalidRepositoryState ("\"" ++ folder ++ "\" repository is not clean\n"))) := by
    unfold validateRepositoryBranch
    rw [hpkg]
    dsimp only
    rw [hprot]
  refine ⟨?_, ?_, ?_, ?_, ?_, ?_⟩
  · rw [hval]
    rcases hclean : w.isGitClean folder with _ | _
    · simp [isError]
    · rcases hmem : jsStrMember prot (w.currentBranch folder) with _ | _ <;>
        simp [isError, hmem]
  · intro hclean
    rw [hval, hclean]
    rfl
  · intro hclean hmem
    rw [hval, hclean, hmem]
    rfl
  · intro pkg2 hcs
    unfold effectiveProtectedBranches
    rw [hcs]
    rfl
  · intro pkg2 cs hcs htruthy hov
    unfold effectiveProtectedBranches
    rw [hcs]
    dsimp only
    rw [if_pos htruthy, hov]
  · intro pkg2 cs ov hcs htruthy hov hovt
    unfold effectiveProtectedBranches
    rw [hcs]
    dsimp only
    rw [if_pos htruthy, hov]
    dsimp only
    rw [if_pos hovt]

/-- Witness for C2: a manifest overriding the protected set with
`["main"]` while the repository sits cleanly on `main`. -/
theorem claim2_witness :
    validateRepositoryBranch wProtectedMain "/c" =
      Except.error (Err.invalidRepositoryBranch "\"main\" in \"/c\"") :=
  (claim2_branch_gate_iff wProtectedMain "/c"
      (Json.obj [("csBuild", Json.obj [("protectedBranches", Json.arr [Json.str "main"])])])
      [Json.str "main"] rfl rfl).2.2.1 rfl rfl

/-- C8 counterexample: a manifest that is valid JSON but has no
`version` field makes `getPackageVersion` return normally (with the
JavaScript value `undefined`), not raise a fatal error. -/
theorem claim8_counterexample :
    getPackageVersion wNoVersion "/r" = Except.ok none ∧
    isError (getPackageVersion wNoVersion "/r") = false :=
  ⟨rfl, rfl⟩

/-- C8 (amended): `getPackageVersion` propagates a fatal parse error for
a malformed-JSON manifest, and for a well-formed manifest returns the
manifest's `version` property — which is `undefined`, a normal return,
when the field is absent. -/
theorem claim8_version_read :
    ∀ (w : World) (folder : String),
      (∀ e : Unit, w.packageJson folder = Except.error e →
        getPackageVersion w folder =
          Except.error (Err.parseError (pathJoin folder "package.json"))) ∧
      (∀ pkg : Json, w.packageJson folder = Except.ok pkg →
        getPackageVersion w folder = Except.ok (jsGetField pkg "version")) := by
  intro w folder
  constructor
  · intro e he
    unfold getPackageVersion
    rw [he]
  · intro pkg hpkg
    unfold getPackageVersion
    rw [hpkg]

/-- Witness for C8 at a malformed manifest and at a well-formed one. -/
theorem claim8_witness :
    getPackageVersion wBadJson "/r" = Except.error (Err.parseError "/r/package.json") ∧
    getPackageVersion wGood "/c" = Except.ok (some (Json.str "1.0.0")) :=
  ⟨(claim8_version_read wBadJson "/r").1 () rfl,
   (claim8_version_read wGood "/c").2 (Json.obj [("version", Json.str "1.0.0")]) rfl⟩

/-- C9: with the client path `/cli` missing and the server path `/srv`
present, the `INVALID_CONFIG` error message interpolates the server path
(`config.settings.server`) into the client-not-found text: it contains
`/srv` and does not contain the actually-missing `/cli`. -/
theorem claim9_error_names_wrong_path :
    validateConfigPaths wMissingClient cfgMissingClient =
      Except.error (Err.invalidConfig
        "Repository /srv for cs client not found. Use cs-build config [PROJECT-NAME] --client /path/to/repository/\n") ∧
    strContainsSub
      ("Repository /srv for cs client not found. Use cs-build config [PROJECT-NAME] --client /path/to/repository/\n").toList
      "/srv".toList = true ∧
    strContainsSub
      ("Repository /srv for cs client not found. Use cs-build config [PROJECT-NAME] --client /path/to/repository/\n").toList
      "/cli".toList = false :=
  ⟨rfl, rfl, rfl⟩

/- ---------- Pipeline master lemmas ---------- -/

theorem lib_master (w : World) (cwd0 : String) (config : Config) :
    (∃ n, (IndexJs.validateRepositories w cwd0 config).1 = (canonLib config).take n) ∧
    ((IndexJs.validateRepositories w cwd0 config).2 = Except.ok () →
      (IndexJs.validateRepositories w cwd0 config).1 = canonLib config) ∧
    (∀ e : Err, validateConfigPaths w config = Except.error e →
      (IndexJs.validateRepositories w cwd0 config).2 = Except.error e) ∧
    (configPathsBad w config = false →
      isInvalidConfigErr (IndexJs.validateRepositories w cwd0 config).2 = false) ∧
    ((IndexJs.validateRepositories w cwd0 config).1.all (fun s => !(isMutating s)) = true) := by
  unfold IndexJs.validateRepositories
  cases h1 : validateConfigPaths w config with
  | error e =>
    simp only [stepBind_gate_err]
    refine ⟨⟨1, rfl⟩, fun hok => absurd hok (by simp), fun e2 he2 => ?_, fun hbad => ?_, rfl⟩
    · injection he2 with hh
      exact congrArg Except.error hh
    · have hpc := configPaths_invalid w config
      rw [h1, hbad] at hpc
      exact hpc
  | ok u =>
    cases u
    simp only [stepBind_gate_ok]
    cases h2 : execShellCommand w cwd0 (fetchCmd config.settings.client) none with
    | error e =>
      simp only [stepBind_gate_err]
      refine ⟨⟨2, rfl⟩, fun hok => absurd hok (by simp), fun e2 he2 => ?_, fun hbad => ?_, rfl⟩
      · exact absurd he2 (by simp)
      · rw [execShellCommand_error_eq h2]
        rfl
    | ok b1 =>
      simp only [stepBind_gate_ok]
      cases h3 : execShellCommand w cwd0 (fetchCmd config.settings.server) none with
      | error e =>
        simp only [stepBind_gate_err]
        refine ⟨⟨3, rfl⟩, fun hok => absurd hok (by simp), fun e2 he2 => ?_, fun hbad => ?_, rfl⟩
        · exact absurd he2 (by simp)
        · rw [execShellCommand_error_eq h3]
          rfl
      | ok b2 =>
        simp only [stepBind_gate_ok]
        cases h4 : validateRepositoryBranch w config.settings.client with
        | error e =>
          simp only [stepBind_gate_err]
          refine ⟨⟨4, rfl⟩, fun hok => absurd hok (by simp), fun e2 he2 => ?_, fun hbad => ?_, rfl⟩
          · exact absurd he2 (by simp)
          · exact validateRepositoryBranch_error_kind h4
        | ok cb =>
          simp only [stepBind_gate_ok]
          cases h5 : validateRepositoryBranch w config.settings.server with
          | error e =>
            simp only [stepBind_gate_err]
            refine ⟨⟨5, rfl⟩, fun hok => absurd hok (by simp), fun e2 he2 => ?_, fun hbad => ?_, rfl⟩
            · exact absurd he2 (by simp)
            · exact validateRepositoryBranch_error_kind h5
          | ok sb =>
            simp only [stepBind_gate_ok]
            cases h6 : checkCommitsBehind w cwd0 config.settings.client config.stage with
            | error e =>
              simp only [stepBind_gate_err]
              refine ⟨⟨6, rfl⟩, fun hok => absurd hok (by simp), fun e2 he2 => ?_,
                fun hbad => ?_, rfl⟩
              · exact absurd he2 (by simp)
              · exact checkCommitsBehind_error_kind h6
            | ok u6 =>
              cases u6
              simp only [stepBind_gate_ok]
              cases h7 : checkCommitsBehind w cwd0 config.settings.server config.stage with
              | error e =>
                simp only [stepBind_gate_err]
                refine ⟨⟨7, rfl⟩, fun hok => absurd hok (by simp), fun e2 he2 => ?_,
                  fun hbad => ?_, rfl⟩
                · exact absurd he2 (by simp)
                · exact checkCommitsBehind_error_kind h7
              | ok u7 =>
                cases u7
                simp only [stepBind_gate_ok]
                cases h8 : execShellCommand w cwd0 (testCmd config.settings.client) none with
                | error e =>
                  simp only [stepBind_gate_err]
                  refine ⟨⟨8, rfl⟩, fun hok => absurd hok (by simp), fun e2 he2 => ?_,
                    fun hbad => ?_, rfl⟩
                  · exact absurd he2 (by simp)
                  · rw [execShellCommand_error_eq h8]
                    rfl
                | ok b8 =>
                  simp only [stepBind_gate_ok]
                  cases h9 : execShellCommand w cwd0 (testCmd config.settings.server) none with
                  | error e =>
                    simp only [stepBind_gate_err]
                    refine ⟨⟨9, rfl⟩, fun hok => absurd hok (by simp), fun e2 he2 => ?_,
                      fun hbad => ?_, rfl⟩
                    · exact absurd he2 (by simp)
                    · rw [execShellCommand_error_eq h9]
                      rfl
                  | ok b9 =>
                    simp only [stepBind_gate_ok]
                    cases h10 : execShellCommand w cwd0
                        ("npm run build-nightly --prefix " ++ config.settings.client)
                        (some false) with
                    | error e =>
                      simp only [stepBind_gate_err]
                      refine ⟨⟨10, rfl⟩, fun hok => absurd hok (by simp), fun e2 he2 => ?_,
                        fun hbad => ?_, rfl⟩
                      · exact absurd he2 (by simp)
                      · rw [execShellCommand_error_eq h10]
                        rfl
                    | ok b10 =>
                      simp only [stepBind_gate_ok]
                      refine ⟨⟨10, rfl⟩, fun _ => rfl, fun e2 he2 => ?_, fun hbad => rfl, rfl⟩
                      exact absurd he2 (by simp)

theorem part_master (w : World) (cwd0 : String) (config : Config) :
    (∃ n, (Part000.validateRepositories w cwd0 config).1 = (canonPart w config).take n) ∧
    ((Part000.validateRepositories w cwd0 config).2 = Except.ok () →
      (Part000.validateRepositories w cwd0 config).1 = canonPart w config) ∧
    (∀ e : Err, validateConfigPaths w config = Except.error e →
      (Part000.validateRepositories w cwd0 config).2 = Except.error e) ∧
    (configPathsBad w config = false →
      isInvalidConfigErr (Part000.validateRepositories w cwd0 config).2 = false) ∧
    (((Part000.validateRepositories w cwd0 config).1.any (fun s => isMutating s)) = true →
      readOnlyGatesOk w cwd0 config) := by
  unfold Part000.validateRepositories bumpRepositoryVersion commitNewClientVersion
  simp only [stepBind_assoc, stepBind_pure]
  cases h1 : validateConfigPaths w config with
  | error e =>
    simp only [stepBind_gate_err]
    refine ⟨⟨1, rfl⟩, fun hok => absurd hok (by simp), fun e2 he2 => ?_,
      fun hbad => ?_, fun hmut => absurd hmut (by simp [isMutating])⟩
    · injection he2 with hh
      exact congrArg Except.error hh
    · have hpc := configPaths_invalid w config
      rw [h1, hbad] at hpc
      exact hpc
  | ok u =>
    cases u
    simp only [stepBind_gate_ok]
    cases h2 : validateRepositoryBranch w config.settings.client with
    | error e =>
      simp only [stepBind_gate_err]
      refine ⟨⟨2, rfl⟩, fun hok => absurd hok (by simp), fun e2 he2 => ?_,
        fun hbad => ?_, fun hmut => absurd hmut (by simp [isMutating])⟩
      · exact absurd he2 (by simp)
      · exact validateRepositoryBranch_error_kind h2
    | ok clientBranch =>
      have hcb := validateRepositoryBranch_ok_branch h2
      subst hcb
      simp only [stepBind_gate_ok]
      cases h3 : validateRepositoryBranch w config.settings.server with
      | error e =>
        simp only [stepBind_gate_err]
        refine ⟨⟨3, rfl⟩, fun hok => absurd hok (by simp), fun e2 he2 => ?_,
          fun hbad => ?_, fun hmut => absurd hmut (by simp [isMutating])⟩
        · exact absurd he2 (by simp)
        · exact validateRepositoryBranch_error_kind h3
      | ok serverBranch =>
        have hsb := validateRepositoryBranch_ok_branch h3
        subst hsb
        simp only [stepBind_gate_ok]
        cases h4 : execShellCommand w cwd0 (fetchCmd config.settings.client) none with
        | error e =>
          simp only [stepBind_gate_err]
          refine ⟨⟨4, rfl⟩, fun hok => absurd hok (by simp), fun e2 he2 => ?_,
            fun hbad => ?_, fun hmut => absurd hmut (by simp [isMutating])⟩
          · exact absurd he2 (by simp)
          · rw [execShellCommand_error_eq h4]
            rfl
        | ok b4 =>
          simp only [stepBind_gate_ok]
          cases h5 : execShellCommand w cwd0 (pullCmd config.settings.client config.stage) none with
          | error e =>
            simp only [stepBind_gate_err]
            refine ⟨⟨5, rfl⟩, fun hok => absurd hok (by simp), fun e2 he2 => ?_,
              fun hbad => ?_, fun hmut => absurd hmut (by simp [isMutating])⟩
            · exact absurd he2 (by simp)
            · rw [execShellCommand_error_eq h5]
              rfl
          | ok b5 =>
            simp only [stepBind_gate_ok]
            cases h6 : execShellCommand w cwd0 (fetchCmd config.settings.server) none with
            | error e =>
              simp only [stepBind_gate_err]
              refine ⟨⟨6, rfl⟩, fun hok => absurd hok (by simp), fun e2 he2 => ?_,
                fun hbad => ?_, fun hmut => absurd hmut (by simp [isMutating])⟩
              · exact absurd he2 (by simp)
              · rw [execShellCommand_error_eq h6]
                rfl
            | ok b6 =>
              simp only [stepBind_gate_ok]
              cases h7 : execShellCommand w cwd0 (pullCmd config.settings.server config.stage) none with
              | error e =>
                simp only [stepBind_gate_err]
                refine ⟨⟨7, rfl⟩, fun hok => absurd hok (by simp), fun e2 he2 => ?_,
                  fun hbad => ?_, fun hmut => absurd hmut (by simp [isMutating])⟩
                · exact absurd he2 (by simp)
                · rw [execShellCommand_error_eq h7]
                  rfl
              | ok b7 =>
                simp only [stepBind_gate_ok]
                cases h8 : checkCommitsBehind w cwd0 config.settings.client config.stage with
                | error e =>
                  simp only [stepBind_gate_err]
                  refine ⟨⟨8, rfl⟩, fun hok => absurd hok (by simp), fun e2 he2 => ?_,
                    fun hbad => ?_, fun hmut => absurd hmut (by simp [isMutating])⟩
                  · exact absurd he2 (by simp)
                  · exact checkCommitsBehind_error_kind h8
                | ok u8 =>
                  cases u8
                  simp only [stepBind_gate_ok]
                  cases h9 : checkCommitsBehind w cwd0 config.settings.server config.stage with
                  | error e =>
                    simp only [stepBind_gate_err]
                    refine ⟨⟨9, rfl⟩, fun hok => absurd hok (by simp), fun e2 he2 => ?_,
                      fun hbad => ?_, fun hmut => absurd hmut (by simp [isMutating])⟩
                    · exact absurd he2 (by simp)
                    · exact checkCommitsBehind_error_kind h9
                  | ok u9 =>
                    cases u9
                    simp only [stepBind_gate_ok]
                    cases h10 : execShellCommand w cwd0 (testCmd config.settings.client) none with
                    | error e =>
                      simp only [stepBind_gate_err]
                      refine ⟨⟨10, rfl⟩, fun hok => absurd hok (by simp), fun e2 he2 => ?_,
                        fun hbad => ?_, fun hmut => absurd hmut (by simp [isMutating])⟩
                      · exact absurd he2 (by simp)
                      · rw [execShellCommand_error_eq h10]
                        rfl
                    | ok b10 =>
                      simp only [stepBind_gate_ok]
                      cases h11 : execShellCommand w cwd0 (testCmd config.settings.server) none with
                      | error e =>
                        simp only [stepBind_gate_err]
                        refine ⟨⟨11, rfl⟩, fun hok => absurd hok (by simp), fun e2 he2 => ?_,
                          fun hbad => ?_, fun hmut => absurd hmut (by simp [isMutating])⟩
                        · exact absurd he2 (by simp)
                        · rw [execShellCommand_error_eq h11]
                          rfl
                      | ok b11 =>
                        have hro : readOnlyGatesOk w cwd0 config := by
                          refine ⟨h1, ?_, ?_, h8, h9, ?_, ?_⟩
                          · rw [h2]
                            rfl
                          · rw [h3]
                            rfl
                          · rw [h10]
                            rfl
                          · rw [h11]
                            rfl
                        simp only [stepBind_gate_ok]
                        cases h12 : execShellCommand w config.settings.client "npm version prerelease" (some false) with
                        | error e =>
                          simp only [stepBind_gate_err]
                          refine ⟨⟨12, rfl⟩, fun hok => absurd hok (by simp), fun e2 he2 => ?_,
                            fun hbad => ?_, fun _ => hro⟩
                          · exact absurd he2 (by simp)
                          · rw [execShellCommand_error_eq h12]
                            rfl
                        | ok b12 =>
                          simp only [stepBind_gate_ok]
                          cases h13 : execShellCommand w config.settings.client ("git push origin " ++ w.currentBranch config.settings.client ++ " --no-verify") (some false) with
                          | error e =>
                            simp only [stepBind_gate_err]
                            refine ⟨⟨13, rfl⟩, fun hok => absurd hok (by simp), fun e2 he2 => ?_,
                              fun hbad => ?_, fun _ => hro⟩
                            · exact absurd he2 (by simp)
                            · rw [execShellCommand_error_eq h13]
                              rfl
                          | ok b13 =>
                            simp only [stepBind_gate_ok]
                            cases h14 : execShellCommand w config.settings.client "git push --tags --no-verify" (some false) with
                            | error e =>
                              simp only [stepBind_gate_err]
                              refine ⟨⟨14, rfl⟩, fun hok => absurd hok (by simp), fun e2 he2 => ?_,
                                fun hbad => ?_, fun _ => hro⟩
                              · exact absurd he2 (by simp)
                              · rw [execShellCommand_error_eq h14]
                                rfl
                            | ok b14 =>
                              simp only [stepBind_gate_ok]
                              cases h15 : execShellCommand w config.settings.client ("npm run build-" ++ config.stage ++ " --prefix " ++ config.settings.client) none with
                              | error e =>
                                simp only [stepBind_gate_err]
                                refine ⟨⟨15, rfl⟩, fun hok => absurd hok (by simp), fun e2 he2 => ?_,
                                  fun hbad => ?_, fun _ => hro⟩
                                · exact absurd he2 (by simp)
                                · rw [execShellCommand_error_eq h15]
                                  rfl
                              | ok b15 =>
                                simp only [stepBind_gate_ok]
                                cases h16 : getPackageVersion w config.settings.client with
                                | error e =>
                                  simp only [stepBind_gate_err]
                                  refine ⟨⟨16, rfl⟩, fun hok => absurd hok (by simp), fun e2 he2 => ?_,
                                    fun hbad => ?_, fun _ => hro⟩
                                  · exact absurd he2 (by simp)
                                  · exact getPackageVersion_error_kind h16
                                | ok v16 =>
                                  simp only [stepBind_gate_ok]
                                  rw [getPackageVersion_ok_display h16]
                                  cases h17 : execShellCommand w config.settings.server "git add ." (some false) with
                                  | error e =>
                                    simp only [stepBind_gate_err]
                                    refine ⟨⟨17, rfl⟩, fun hok => absurd hok (by simp), fun e2 he2 => ?_,
                                      fun hbad => ?_, fun _ => hro⟩
                                    · exact absurd he2 (by simp)
                                    · rw [execShellCommand_error_eq h17]
                                      rfl
                                  | ok b17 =>
                                    simp only [stepBind_gate_ok]
                                    cases h18 : execShellCommand w config.settings.server ("git commit -am \"add client version " ++ versionDisplay w config.settings.client ++ "\"") (some false) with
                                    | error e =>
                                      simp only [stepBind_gate_err]
                                      refine ⟨⟨18, rfl⟩, fun hok => absurd hok (by simp), fun e2 he2 => ?_,
                                        fun hbad => ?_, fun _ => hro⟩
                                      · exact absurd he2 (by simp)
                                      · rw [execShellCommand_error_eq h18]
                                        rfl
                                    | ok b18 =>
                                      simp only [stepBind_gate_ok]
                                      cases h19 : execShellCommand w config.settings.server "npm version prerelease" (some false) with
                                      | error e =>
                                        simp only [stepBind_gate_err]
                                        refine ⟨⟨19, rfl⟩, fun hok => absurd hok (by simp), fun e2 he2 => ?_,
                                          fun hbad => ?_, fun _ => hro⟩
                                        · exact absurd he2 (by simp)
                                        · rw [execShellCommand_error_eq h19]
                                          rfl
                                      | ok b19 =>
                                        simp only [stepBind_gate_ok]
                                        cases h20 : execShellCommand w config.settings.server ("git push origin " ++ w.currentBranch config.settings.server ++ " --no-verify") (some false) with
                                        | error e =>
                                          simp only [stepBind_gate_err]
                                          refine ⟨⟨20, rfl⟩, fun hok => absurd hok (by simp), fun e2 he2 => ?_,
                                            fun hbad => ?_, fun _ => hro⟩
                                          · exact absurd he2 (by simp)
                                          · rw [execShellCommand_error_eq h20]
                                            rfl
                                        | ok b20 =>
                                          simp only [stepBind_gate_ok]
                                          cases h21 : execShellCommand w config.settings.server "git push --tags --no-verify" (some false) with
                                          | error e =>
                                            simp only [stepBind_gate_err]
                                            refine ⟨⟨21, rfl⟩, fun hok => absurd hok (by simp), fun e2 he2 => ?_,
                                              fun hbad => ?_, fun _ => hro⟩
                                            · exact absurd he2 (by simp)
                                            · rw [execShellCommand_error_eq h21]
                                              rfl
                                          | ok b21 =>
                                            simp only [stepBind_gate_ok]
                                            refine ⟨⟨21, rfl⟩, fun _ => rfl, fun e2 he2 => absurd he2 (by simp),
                                              fun _ => rfl, fun _ => hro⟩

/- ---------- Claim theorems: pipeline ---------- -/

/-- C1 counterexample: in the `part_000` revision, an actual run (here a
fully succeeding one) executes its BranchGated checks immediately after
ConfigValidated and before any Fetched step, refuting the claimed strict
order ConfigValidated, Fetched, BranchGated, DriftGated, Tested, Built. -/
theorem claim1_counterexample :
    ((Part000.validateRepositories wGood "/" cfgDemo).1.map gateOf).take 3 =
      [Gate.configValidated, Gate.branchGated, Gate.branchGated] ∧
    (((Part000.validateRepositories wGood "/" cfgDemo).1.map gateOf).take 3).contains
      Gate.fetched = false :=
  ⟨rfl, rfl⟩

/-- C1 (amended): the `lib/index.js` revision runs its gates in order
ConfigValidated, Fetched (client, server), BranchGated (client, server),
DriftGated (client, server), Tested (client, server), Built; the
`part_000` revision runs BranchGated (client, server) before Fetched
(fetch and pull per repository), then DriftGated, Tested and the
release steps.  In both, every trace is a prefix of that order (the
first failing gate aborts the run), a successful run executes it in
full, the `lib/index.js` revision contains no mutating step at all, and
the `part_000` revision reaches a mutating step (version bump, commit,
push) only when every read-only gate succeeded for both repositories. -/
theorem claim1_pipeline_order :
    ∀ (w : World) (cwd0 : String) (config : Config),
      (canonLib config).map gateOf =
        [Gate.configValidated, Gate.fetched, Gate.fetched, Gate.branchGated, Gate.branchGated,
         Gate.driftGated, Gate.driftGated, Gate.tested, Gate.tested, Gate.built] ∧
      (canonPart w config).map gateOf =
        [Gate.configValidated, Gate.branchGated, Gate.branchGated, Gate.fetched, Gate.fetched,
         Gate.fetched, Gate.fetched, Gate.driftGated, Gate.driftGated, Gate.tested, Gate.tested,
         Gate.built, Gate.built, Gate.built, Gate.built, Gate.built, Gate.built, Gate.built,
         Gate.built, Gate.built, Gate.built] ∧
      (∃ n, (IndexJs.validateRepositories w cwd0 config).1 = (canonLib config).take n) ∧
      ((IndexJs.validateRepositories w cwd0 config).2 = Except.ok () →
        (IndexJs.validateRepositories w cwd0 config).1 = canonLib config) ∧
      (∃ n, (Part000.validateRepositories w cwd0 config).1 = (canonPart w config).take n) ∧
      ((Part000.validateRepositories w cwd0 config).2 = Except.ok () →
        (Part000.validateRepositories w cwd0 config).1 = canonPart w config) ∧
      ((IndexJs.validateRepositories w cwd0 config).1.all (fun s => !(isMutating s)) = true) ∧
      (((Part000.validateRepositories w cwd0 config).1.any (fun s => isMutating s)) = true →
        readOnlyGatesOk w cwd0 config) := by
  intro w cwd0 config
  obtain ⟨lp, lo, _, _, lm⟩ := lib_master w cwd0 config
  obtain ⟨pp, po, _, _, pg⟩ := part_master w cwd0 config
  exact ⟨rfl, rfl, lp, lo, pp, po, lm, pg⟩

/-- Witness for C1: a fully succeeding world runs both revisions to the
end of their canonical step orders, and the part_000 run, having reached
its mutating steps, had every read-only gate passing. -/
theorem claim1_witness :
    (IndexJs.validateRepositories wGood "/" cfgDemo).2 = Except.ok () ∧
    (IndexJs.validateRepositories wGood "/" cfgDemo).1 = canonLib cfgDemo ∧
    (Part000.validateRepositories wGood "/" cfgDemo).2 = Except.ok () ∧
    (Part000.validateRepositories wGood "/" cfgDemo).1 = canonPart wGood cfgDemo ∧
    readOnlyGatesOk wGood "/" cfgDemo :=
  ⟨rfl, (claim1_pipeline_order wGood "/" cfgDemo).2.2.2.1 rfl, rfl,
   (claim1_pipeline_order wGood "/" cfgDemo).2.2.2.2.2.1 rfl,
   (claim1_pipeline_order wGood "/" cfgDemo).2.2.2.2.2.2.2 rfl⟩

/-- C4: in both revisions the pipeline result is an `INVALID_CONFIG`
failure exactly when the server path is missing, the client path is
missing, or the two paths compare equal case-insensitively. -/
theorem claim4_invalid_config_iff :
    ∀ (w : World) (cwd0 : String) (config : Config),
      isInvalidConfigErr (IndexJs.validateRepositories w cwd0 config).2 =
        configPathsBad w config ∧
      isInvalidConfigErr (Part000.validateRepositories w cwd0 config).2 =
        configPathsBad w config := by
  intro w cwd0 config
  obtain ⟨_, _, lfe, lnc, _⟩ := lib_master w cwd0 config
  obtain ⟨_, _, pfe, pnc, _⟩ := part_master w cwd0 config
  constructor
  · rcases hb : configPathsBad w config with _ | _
    · exact lnc hb
    · have hpc := configPaths_invalid w config
      rw [hb] at hpc
      obtain ⟨m, hm⟩ := isInvalidConfigErr_true_elim hpc
      rw [lfe (Err.invalidConfig m) hm]
      rfl
  · rcases hb : configPathsBad w config with _ | _
    · exact pnc hb
    · have hpc := configPaths_invalid w config
      rw [hb] at hpc
      obtain ⟨m, hm⟩ := isInvalidConfigErr_true_elim hpc
      rw [pfe (Err.invalidConfig m) hm]
      rfl

/-- C7 counterexample: with stage `production`, a fully succeeding run
of the `lib/index.js` revision never invokes `build-production`; its
build step is the hardcoded `npm run build-nightly`. -/
theorem claim7_counterexample :
    (IndexJs.validateRepositories wGood "/" cfgDemo).2 = Except.ok () ∧
    ((IndexJs.validateRepositories wGood "/" cfgDemo).1.contains
      (Step.build ("npm run build-" ++ cfgDemo.stage ++ " --prefix " ++
        cfgDemo.settings.client))) = false ∧
    ((IndexJs.validateRepositories wGood "/" cfgDemo).1.contains
      (Step.build "npm run build-nightly --prefix /c")) = true :=
  ⟨rfl, rfl, rfl⟩

/-- C7 (amended): every successful run uses STAGE as the drift-comparison
reference in both revisions; the `part_000` revision also uses STAGE as
the build-script suffix (`build-<STAGE>`), while the `lib/index.js`
revision invokes the hardcoded `build-nightly` script instead. -/
theorem claim7_stage_usage :
    ∀ (w : World) (cwd0 : String) (config : Config),
      ((Part000.validateRepositories w cwd0 config).2 = Except.ok () →
        Step.driftCheck config.settings.client config.stage ∈
          (Part000.validateRepositories w cwd0 config).1 ∧
        Step.build ("npm run build-" ++ config.stage ++ " --prefix " ++
          config.settings.client) ∈ (Part000.validateRepositories w cwd0 config).1) ∧
      ((IndexJs.validateRepositories w cwd0 config).2 = Except.ok () →
        Step.driftCheck config.settings.client config.stage ∈
          (IndexJs.validateRepositories w cwd0 config).1 ∧
        Step.build ("npm run build-nightly --prefix " ++ config.settings.client) ∈
          (IndexJs.validateRepositories w cwd0 config).1) := by
  intro w cwd0 config
  obtain ⟨_, lo, _, _, _⟩ := lib_master w cwd0 config
  obtain ⟨_, po, _, _, _⟩ := part_master w cwd0 config
  constructor
  · intro hok
    rw [po hok]
    constructor <;> simp [canonPart]
  · intro hok
    rw [lo hok]
    constructor <;> simp [canonLib]

/-- Witness for C7: in the succeeding production-stage run, the part_000
revision both drift-checks against `production` and builds
`build-production`. -/
theorem claim7_witness :
    (Part000.validateRepositories wGood "/" cfgDemo).2 = Except.ok () ∧
    Step.driftCheck cfgDemo.settings.client cfgDemo.stage ∈
      (Part000.validateRepositories wGood "/" cfgDemo).1 ∧
    Step.build ("npm run build-" ++ cfgDemo.stage ++ " --prefix " ++
      cfgDemo.settings.client) ∈ (Part000.validateRepositories wGood "/" cfgDemo).1 :=
  ⟨rfl, ((claim7_stage_usage wGood "/" cfgDemo).1 rfl).1,
   ((claim7_stage_usage wGood "/" cfgDemo).1 rfl).2⟩
